import Mathlib

/-!
Verification of the pp-downloader repository (Go).

This file gives a shallow embedding of the parts of the repository that the
specification speaks about, and proves or refutes the specified properties
against it.

Embedding conventions:
* Wall-clock instants and Go `time.Duration` values are modelled as `Int`
  (Go durations are `int64` nanoseconds).  `time.Now()` / SQLite
  `CURRENT_TIMESTAMP` become an explicit `now : Int` parameter taken once per
  call, mirroring where the source samples the clock.
* The SQLite store becomes an explicit `DB` value threaded through the
  operations.  Rows are kept in insertion order; the `youtube_id` columns are
  UNIQUE in the schema, and keyed UPDATEs are modelled accordingly.
* External effects (yt-dlp listing, yt-dlp download, `os.Stat`) become oracle
  function parameters, so a theorem can quantify over their outcomes.
* Fallible Go functions return `Except String _`; an error return models the
  enclosing transaction having been rolled back, a success return models the
  commit, matching the `defer tx.Rollback()` / `tx.Commit()` pattern of the
  source.
-/

namespace PPDownloader

/-! ### Go string primitives (strings.Contains / strings.Split / strings.HasPrefix)

The source uses `strings.Contains` and `strings.Split` (always with a
non-empty separator).  They are embedded structurally over `List Char` so
that every use is computable by the kernel. -/

/-- `charsStartsWith l sub` : does `l` start with `sub`?  (Go `strings.HasPrefix`.) -/
def charsStartsWith : List Char → List Char → Bool
  | _, [] => true
  | [], _ :: _ => false
  | c :: cs, d :: ds => c == d && charsStartsWith cs ds

/-- `charsContains sub l` : does `l` contain `sub` as a contiguous substring?
(Go `strings.Contains(l, sub)`.) -/
def charsContains (sub : List Char) : List Char → Bool
  | [] => sub.isEmpty
  | c :: rest => charsStartsWith (c :: rest) sub || charsContains sub rest

/-- Go `strings.Contains(s, sub)`. -/
def goContains (s sub : String) : Bool :=
  charsContains sub.toList s.toList

/-- Splitting worker: splits `l` around every non-overlapping instance of the
non-empty separator `sep`, left to right, `cur` accumulating the current
(reversed) field.  (Go `strings.Split` for a non-empty separator.)  The
recursion is made structural over a fuel counter so that the kernel can
evaluate it; starting the fuel at the input length is always sufficient,
since every step consumes at least one input character (the separator is
non-empty at every call with non-empty input). -/
def splitAux (sep : List Char) : Nat → List Char → List Char → List (List Char)
  | 0, l, cur => [cur.reverse ++ l]
  | _ + 1, [], cur => [cur.reverse]
  | fuel + 1, c :: rest, cur =>
    if sep ≠ [] && charsStartsWith (c :: rest) sep then
      cur.reverse :: splitAux sep fuel ((c :: rest).drop sep.length) []
    else
      splitAux sep fuel rest (c :: cur)

/-- Go `strings.Split(s, sep)`.  The source only ever calls it with the
non-empty literal separators `"list="` and `"&"`; the `sep = ""` case (where
Go would explode into single characters) is therefore left as `[s]`. -/
def goSplit (s sep : String) : List String :=
  if sep = "" then [s]
  else (splitAux sep.toList s.toList.length s.toList []).map fun cs => String.mk cs

/-! ### src/internal/database/database.go — sanitizeFilename -/

/-- A character matched by the Go regexp character class `[<>:"/\|?*]`
(the backslash in the class is the literal backslash character). -/
def invalidFilenameChar (c : Char) : Bool :=
  c = '<' || c = '>' || c = ':' || c = '"' || c = '/' || c = '\\' ||
  c = '|' || c = '?' || c = '*'

/-- A character matched by the Go regexp class `\s`, i.e. `[\t\n\f\r ]`. -/
def goSpace (c : Char) : Bool :=
  c = '\t' || c = '\n' || c = '\x0c' || c = '\r' || c = ' '

/-- A character trimmed by Go `strings.TrimSpace` (`unicode.IsSpace`), for
the code points it can meet here. -/
def goUnicodeSpace (c : Char) : Bool :=
  c = '\t' || c = '\n' || c = '\x0b' || c = '\x0c' || c = '\r' || c = ' ' ||
  c = '\x85' || c = '\xa0'

/-- Replace every maximal run of `\s` characters by a single `' '`
(Go `regexp.MustCompile("\\s+").ReplaceAllString(s, " ")`); the flag records
whether we are inside a run. -/
def collapseSpacesAux : Bool → List Char → List Char
  | _, [] => []
  | inRun, c :: rest =>
    if goSpace c then
      if inRun then collapseSpacesAux true rest
      else ' ' :: collapseSpacesAux true rest
    else c :: collapseSpacesAux false rest

/-- Go `strings.TrimSpace` over a character list. -/
def trimSpaceChars (l : List Char) : List Char :=
  ((l.dropWhile goUnicodeSpace).reverse.dropWhile goUnicodeSpace).reverse

/-- `sanitizeFilename` of src/internal/database/database.go: delete the
characters `<>:"/\|?*`, collapse whitespace runs to one space, trim. -/
def sanitizeFilename (s : String) : String :=
  let noInvalid := s.toList.filter fun c => !invalidFilenameChar c
  String.mk (trimSpaceChars (collapseSpacesAux false noInvalid))

/-! ### src/internal/downloader/downloader.go — extractPlaylistID -/

/-- `extractPlaylistID` of src/internal/downloader/downloader.go: a reference
that mentions neither `youtube.com` nor `youtu.be` is returned unchanged
(treated as a direct ID); otherwise, if the reference contains `list=`, the
text between the first `list=` and the following `&` is returned when it is
non-empty; in every remaining case the whole reference is returned. -/
def extractPlaylistID (url : String) : String :=
  if !goContains url "youtube.com" && !goContains url "youtu.be" then url
  else
    if goContains url "list=" then
      let parts := goSplit url "list="
      if parts.length > 1 then
        let id := (goSplit (parts.getD 1 "") "&").getD 0 ""
        if id ≠ "" then id else url
      else url
    else url

/-! ### Data model (schema of src/internal/database/database.go) -/

/-- A row of the `playlists` table. -/
structure PlaylistRow where
  id : Int
  youtubeID : String
  title : String
  description : Option String
  thumbnail : Option String
  channel : Option String
  channelID : Option String
  videoCount : Int
  lastChecked : Int
  createdAt : Int
  updatedAt : Int
deriving DecidableEq, Repr

/-- A row of the `videos` table (the unused AUTOINCREMENT surrogate key is
omitted; rows are identified by the UNIQUE `youtube_id`). -/
structure VideoRow where
  youtubeID : String
  playlistID : Int
  playlistTitle : String
  title : String
  description : String
  channel : String
  channelID : String
  duration : Int
  viewCount : Int
  thumbnailURL : String
  uploadDate : Int
  isLive : Bool
  liveStartTime : Int
  liveEndTime : Int
  metadataJSON : String
  filePath : Option String
  fileSize : Int
  fileChecksum : Option String
  validationStatus : String
  lastValidated : Option Int
  downloadedAt : Int
  createdAt : Int
  updatedAt : Int
deriving DecidableEq, Repr

/-- The two tables plus the AUTOINCREMENT counter for `playlists.id`. -/
structure DB where
  playlists : List PlaylistRow
  videos : List VideoRow
  nextPlaylistId : Int
deriving DecidableEq, Repr

/-- A freshly created store (`NewDatabase` on a new file: empty tables). -/
def emptyDB : DB := { playlists := [], videos := [], nextPlaylistId := 1 }

/-- `database.VideoMetadata`. -/
structure VideoMetadata where
  title : String
  description : String
  channel : String
  channelID : String
  duration : Int
  viewCount : Int
  thumbnailURL : String
  uploadDate : Int
  isLive : Bool
  liveStartTime : Int
  liveEndTime : Int
  metadataJSON : String
deriving DecidableEq, Repr

/-- `SELECT ... FROM playlists WHERE youtube_id = ?` (first — and by the
UNIQUE constraint only — matching row). -/
def getPlaylist? (db : DB) (youtubeID : String) : Option PlaylistRow :=
  db.playlists.find? fun p => p.youtubeID == youtubeID

/-- Number of rows of `videos` whose `playlist_id` references `pid`
(`SELECT COUNT(*) FROM videos WHERE playlist_id = ?`). -/
def countVideos (db : DB) (pid : Int) : Nat :=
  (db.videos.filter fun v => v.playlistID == pid).length

/-! ### src/internal/database/database.go — store operations -/

/-- `Database.GetOrCreatePlaylist` (exported): returns the existing row
unchanged if `youtube_id` is known — the stored title is NOT touched — and
otherwise inserts a fresh row (explicit NULL descriptive columns,
`video_count` DEFAULT 0, all three timestamps CURRENT_TIMESTAMP) and returns
it. -/
def GetOrCreatePlaylist (db : DB) (now : Int) (youtubeID title : String) :
    PlaylistRow × DB :=
  match getPlaylist? db youtubeID with
  | some p => (p, db)
  | none =>
    let row : PlaylistRow :=
      { id := db.nextPlaylistId, youtubeID := youtubeID, title := title,
        description := none, thumbnail := none, channel := none,
        channelID := none, videoCount := 0, lastChecked := now,
        createdAt := now, updatedAt := now }
    (row, { db with playlists := db.playlists ++ [row],
                    nextPlaylistId := db.nextPlaylistId + 1 })

/-- `Database.getOrCreatePlaylist` (unexported, transaction-scoped): when the
row already exists the source updates its title (if it differs) but then
falls through to an unconditional INSERT of the same `youtube_id`, which
violates the UNIQUE constraint; the function returns the INSERT error and the
caller's deferred rollback undoes the title update.  When the row does not
exist, the INSERT succeeds and the fresh rowid is returned. -/
def getOrCreatePlaylistTx (db : DB) (now : Int) (youtubeID title : String) :
    Except String (Int × DB) :=
  match getPlaylist? db youtubeID with
  | some _ =>
    Except.error "failed to create playlist: UNIQUE constraint failed: playlists.youtube_id"
  | none =>
    let row : PlaylistRow :=
      { id := db.nextPlaylistId, youtubeID := youtubeID, title := title,
        description := none, thumbnail := none, channel := none,
        channelID := none, videoCount := 0, lastChecked := now,
        createdAt := now, updatedAt := now }
    Except.ok (db.nextPlaylistId,
      { db with playlists := db.playlists ++ [row],
                nextPlaylistId := db.nextPlaylistId + 1 })

/-- `Database.VideoExists` (and the identical `IsVideoDownloaded`):
`SELECT EXISTS(SELECT 1 FROM videos WHERE youtube_id = ?)`. -/
def VideoExists (db : DB) (youtubeID : String) : Bool :=
  db.videos.any fun v => v.youtubeID == youtubeID

/-- `Database.UpdateFileInfo`: one keyed UPDATE setting `file_path`,
`file_size`, `validation_status = valid` and both timestamps; an UPDATE whose
WHERE clause matches no row is not an error in SQL, so a missing row leaves
the store unchanged and the call still succeeds. -/
def UpdateFileInfo (db : DB) (now : Int) (youtubeID filePath : String)
    (fileSize : Int) : DB :=
  { db with videos := db.videos.map fun v =>
      if v.youtubeID == youtubeID then
        { v with filePath := some filePath, fileSize := fileSize,
                 validationStatus := "valid", lastValidated := some now,
                 updatedAt := now }
      else v }

/-- The INSERT ... ON CONFLICT(youtube_id) DO UPDATE of `AddVideo`: on
conflict every metadata and file column is overwritten and `updated_at`
refreshed; otherwise a fresh row is appended (`created_at`, `updated_at`,
`downloaded_at` from their CURRENT_TIMESTAMP defaults). -/
def upsertVideo (db : DB) (now : Int) (youtubeID : String) (playlistID : Int)
    (playlistTitle : String) (md : VideoMetadata) (filePath : String) : DB :=
  if db.videos.any fun v => v.youtubeID == youtubeID then
    { db with videos := db.videos.map fun v =>
        if v.youtubeID == youtubeID then
          { v with playlistID := playlistID, playlistTitle := playlistTitle,
                   title := md.title, description := md.description,
                   channel := md.channel, channelID := md.channelID,
                   duration := md.duration, viewCount := md.viewCount,
                   thumbnailURL := md.thumbnailURL, uploadDate := md.uploadDate,
                   isLive := md.isLive, liveStartTime := md.liveStartTime,
                   liveEndTime := md.liveEndTime, metadataJSON := md.metadataJSON,
                   filePath := some filePath, fileSize := 0,
                   validationStatus := "pending", lastValidated := some now,
                   updatedAt := now }
        else v }
  else
    { db with videos := db.videos ++
        [{ youtubeID := youtubeID, playlistID := playlistID,
           playlistTitle := playlistTitle, title := md.title,
           description := md.description, channel := md.channel,
           channelID := md.channelID, duration := md.duration,
           viewCount := md.viewCount, thumbnailURL := md.thumbnailURL,
           uploadDate := md.uploadDate, isLive := md.isLive,
           liveStartTime := md.liveStartTime, liveEndTime := md.liveEndTime,
           metadataJSON := md.metadataJSON, filePath := some filePath,
           fileSize := 0, fileChecksum := none,
           validationStatus := "pending", lastValidated := some now,
           downloadedAt := now, createdAt := now, updatedAt := now }] }

/-- `Database.AddVideo`: derives the local `.music/<sanitized title>
[<id>].mp3` path, gets or creates the playlist (via the exported
`GetOrCreatePlaylist`, which commits separately), upserts the video row with
`file_size = 0`, `validation_status = pending`, `last_validated = now`, and
finally recomputes the playlist's `video_count` by the COUNT subquery while
stamping `last_checked` and `updated_at`. -/
def AddVideo (db : DB) (now : Int)
    (youtubeID playlistYoutubeID playlistTitle : String)
    (md : VideoMetadata) : DB :=
  let safeTitle := sanitizeFilename md.title
  let filePath := ".music/" ++ safeTitle ++ " [" ++ youtubeID ++ "].mp3"
  let pr := GetOrCreatePlaylist db now playlistYoutubeID playlistTitle
  let playlist := pr.1
  let db2 := upsertVideo pr.2 now youtubeID playlist.id playlistTitle md filePath
  let cnt : Int := countVideos db2 playlist.id
  { db2 with playlists := db2.playlists.map fun p =>
      if p.id == playlist.id then
        { p with lastChecked := now, updatedAt := now, videoCount := cnt }
      else p }

/-- Outcome of an `os.Stat` call, as the source discriminates it:
no error / `os.IsNotExist` / any other error. -/
inductive StatResult where
  | ok : StatResult
  | notExist : StatResult
  | otherError : StatResult
deriving DecidableEq, Repr

/-- The status string `ValidateFiles` writes for a stat outcome. -/
def statStatus : StatResult → String
  | .ok => "valid"
  | .notExist => "missing"
  | .otherError => "error"

/-- Does this row match `WHERE file_path IS NOT NULL AND file_path != ''`? -/
def hasFilePath (v : VideoRow) : Bool :=
  match v.filePath with
  | some p => p ≠ ""
  | none => false

/-- `Database.ValidateFiles`: one transaction; the row set is the snapshot of
videos with a non-empty `file_path`; `now` is formatted once before the loop
and stamped on every row; each row's `validation_status` becomes `valid` /
`missing` / `error` according to `os.Stat`; the number of rows checked is
returned.  (The per-row UPDATE is keyed by the UNIQUE `youtube_id`; it is
modelled positionally over the snapshot.)  `validateStep` is the body of the
row loop. -/
def validateStep (stat : String → StatResult) (now : Int)
    (acc : Nat × List VideoRow) (v : VideoRow) : Nat × List VideoRow :=
  match v.filePath with
  | some p =>
    if p ≠ "" then
      (acc.1 + 1, acc.2 ++
        [{ v with validationStatus := statStatus (stat p),
                  lastValidated := some now, updatedAt := now }])
    else (acc.1, acc.2 ++ [v])
  | none => (acc.1, acc.2 ++ [v])

/-- `Database.ValidateFiles` proper: fold `validateStep` over the snapshot. -/
def ValidateFiles (stat : String → StatResult) (db : DB) (now : Int) :
    Nat × DB :=
  let r := db.videos.foldl (validateStep stat now) (0, [])
  (r.1, { db with videos := r.2 })

/-- What `ValidateFiles` does to one row, expressed row-locally: rows with a
non-empty `file_path` get the status decided by `os.Stat` and both timestamps
stamped with the pass's single `now`; other rows are untouched.  The theorem
below proves the fold equal to mapping this over the table. -/
def validateRowModel (stat : String → StatResult) (now : Int) (v : VideoRow) :
    VideoRow :=
  match v.filePath with
  | some p =>
    if p ≠ "" then
      { v with validationStatus := statStatus (stat p),
               lastValidated := some now, updatedAt := now }
    else v
  | none => v

/-! ### src/internal/validator/validator.go — CleanupMissingFiles -/

/-- `Validator.CleanupMissingFiles`: one transaction; the query snapshot is
every video with `file_path IS NOT NULL AND validation_status = 'missing'`;
for each, a second `os.Stat` re-confirms absence (`os.IsNotExist`) before
`DELETE FROM videos WHERE youtube_id = ?`; the number of deleted rows is
returned.  The `playlists` table — in particular `video_count` — is not
touched.  `cleanupStep` is the body of the row loop. -/
def cleanupStep (stat : String → StatResult) (acc : Nat × DB) (v : VideoRow) :
    Nat × DB :=
  match v.filePath with
  | some p =>
    if v.validationStatus == "missing" then
      match stat p with
      | .notExist =>
        (acc.1 + 1,
         { acc.2 with videos := acc.2.videos.filter fun w =>
             w.youtubeID ≠ v.youtubeID })
      | _ => acc
    else acc
  | none => acc

/-- `Validator.CleanupMissingFiles` proper: fold `cleanupStep` over the
snapshot. -/
def CleanupMissingFiles (stat : String → StatResult) (db : DB) : Nat × DB :=
  db.videos.foldl (cleanupStep stat) (0, db)

/-! ### src/internal/downloader/downloader.go — ProcessPlaylist -/

/-- `downloader.VideoInfo`: one entry of the yt-dlp flat playlist listing.
(The Go `Duration` field is a `float64` that is only ever truncated to `int`;
it is carried here already truncated, and the Go `UploadDate` string is kept
as a string, its `time.Parse` being abstracted by an oracle.) -/
structure VideoInfo where
  id : String
  title : String
  description : String
  duration : Int
  channel : String
  channelID : String
  playlistID : String
  viewCount : Int
  thumbnail : String
  uploadDate : String
  liveStartTime : Int
  liveEndTime : Int
  metadataJSON : String
deriving DecidableEq, Repr

/-- Result of one `ProcessPlaylist` call: the committed store, the sequence
of `callback(videoID, downloaded)` invocations in order, and the returned
error if any. -/
structure PPResult where
  db : DB
  callbacks : List (String × Bool)
  err : Option String
deriving DecidableEq, Repr

/-- `getPlaylistVideos`: runs yt-dlp (the oracle `listing`) and on success
keeps the entries with a non-empty ID, stamping each with the playlist ID
extracted from the URL.  A non-zero exit or unparsable JSON is the error
case. -/
def getPlaylistVideos (listing : Except String (List VideoInfo))
    (playlistURL : String) : Except String (List VideoInfo) :=
  match listing with
  | .error e => .error ("yt-dlp failed: " ++ e)
  | .ok entries =>
    let playlistID := extractPlaylistID playlistURL
    .ok ((entries.filter fun e => e.id ≠ "").map
          fun e => { e with playlistID := playlistID })

/-- The `database.VideoMetadata` value `ProcessPlaylist` builds from a
listing entry: `IsLive` is never set (zero value `false`), and the upload
date is `time.Parse("20060102", ...)` with the error ignored (zero time when
the string is empty; the parse itself is the oracle `parseDate`). -/
def buildMetadata (parseDate : String → Int) (video : VideoInfo) :
    VideoMetadata :=
  { title := video.title, description := video.description,
    channel := video.channel, channelID := video.channelID,
    duration := video.duration, viewCount := video.viewCount,
    thumbnailURL := video.thumbnail,
    uploadDate := if video.uploadDate ≠ "" then parseDate video.uploadDate else 0,
    isLive := false,
    liveStartTime := video.liveStartTime, liveEndTime := video.liveEndTime,
    metadataJSON := video.metadataJSON }

/-- The per-video loop of `ProcessPlaylist`: an already-known ID is skipped
with `callback(id, false)`; otherwise the download oracle is consulted
(`downloadVideo(video.ID, playlistName)`), a failure skips the item with no
callback, and a success persists via `AddVideo` (called with the snapshot
`playlist.YoutubeID` / `playlist.Title`) then `UpdateFileInfo` and invokes
`callback(id, true)`. -/
def processVideos (download : String → String → Except String (String × Int))
    (parseDate : String → Int) (now : Int)
    (playlistYoutubeID playlistTitle playlistName : String) :
    List VideoInfo → DB → List (String × Bool) → DB × List (String × Bool)
  | [], db, cbs => (db, cbs)
  | video :: rest, db, cbs =>
    if VideoExists db video.id then
      processVideos download parseDate now playlistYoutubeID playlistTitle
        playlistName rest db (cbs ++ [(video.id, false)])
    else
      match download video.id playlistName with
      | .error _ =>
        processVideos download parseDate now playlistYoutubeID playlistTitle
          playlistName rest db cbs
      | .ok (filePath, fileSize) =>
        let md := buildMetadata parseDate video
        let db1 := AddVideo db now video.id playlistYoutubeID playlistTitle md
        let db2 := UpdateFileInfo db1 now video.id filePath fileSize
        processVideos download parseDate now playlistYoutubeID playlistTitle
          playlistName rest db2 (cbs ++ [(video.id, true)])

/-- `Downloader.ProcessPlaylist`: extract the playlist ID (empty → the
`invalid playlist URL` error before anything is stored), get or create the
playlist row, list the remote videos (failure → error return, the playlist
row having already been committed), return `nil` on an empty listing, and
otherwise run the per-video loop, returning `nil` once every item has been
attempted. -/
def ProcessPlaylist (listing : Except String (List VideoInfo))
    (download : String → String → Except String (String × Int))
    (parseDate : String → Int) (db : DB) (now : Int)
    (playlistURL playlistName : String) : PPResult :=
  let playlistID := extractPlaylistID playlistURL
  if playlistID = "" then
    { db := db, callbacks := [],
      err := some ("invalid playlist URL: " ++ playlistURL) }
  else
    let pr := GetOrCreatePlaylist db now playlistID playlistName
    match getPlaylistVideos listing playlistURL with
    | .error e =>
      { db := pr.2, callbacks := [],
        err := some ("failed to get playlist videos: " ++ e) }
    | .ok videos =>
      if videos.length = 0 then { db := pr.2, callbacks := [], err := none }
      else
        let r := processVideos download parseDate now pr.1.youtubeID pr.1.title
          playlistName videos pr.2 []
        { db := r.1, callbacks := r.2, err := none }

/-! ### src/cmd/pp-downloader/main.go — adaptive polling interval -/

/-- One nanosecond, the unit of Go `time.Duration`. -/
def nanosecond : Int := 1

/-- Go `time.Second` in nanoseconds. -/
def second : Int := 1000000000

/-- Go `time.Minute` in nanoseconds. -/
def minute : Int := 60 * second

/-- Go `time.Hour` in nanoseconds. -/
def hour : Int := 60 * minute

/-- `playlistState.calculateInterval`: samples `now` on every call and
returns 5 minutes when `now - lastChange < 24h`, else 15 minutes.  The
function reads only `lastChange`; the struct's stored `interval` field is not
consulted (nothing is cached). -/
def calculateInterval (now lastChange : Int) : Int :=
  if now - lastChange < 24 * hour then 5 * minute else 15 * minute

/-! ### Helper lemmas about the store operations -/

/-- A concrete metadata value used by the concrete scenarios below. -/
def sampleMetadata : VideoMetadata :=
  { title := "My Song", description := "d", channel := "ch", channelID := "cid",
    duration := 3, viewCount := 5, thumbnailURL := "th", uploadDate := 0,
    isLive := false, liveStartTime := 0, liveEndTime := 0, metadataJSON := "" }

/-- A concrete stored video row used by the concrete scenarios below. -/
def sampleRow : VideoRow :=
  { youtubeID := "v1", playlistID := 1, playlistTitle := "T", title := "t",
    description := "", channel := "c", channelID := "ci", duration := 1,
    viewCount := 0, thumbnailURL := "", uploadDate := 0, isLive := false,
    liveStartTime := 0, liveEndTime := 0, metadataJSON := "",
    filePath := some "f.mp3", fileSize := 0, fileChecksum := none,
    validationStatus := "pending", lastValidated := none, downloadedAt := 0,
    createdAt := 0, updatedAt := 0 }

/-- The row written by `AddVideo emptyDB 0 "v1" "PL1" "T" sampleMetadata`,
spelled out. -/
def addedRow : VideoRow :=
  { youtubeID := "v1", playlistID := 1, playlistTitle := "T", title := "My Song",
    description := "d", channel := "ch", channelID := "cid", duration := 3,
    viewCount := 5, thumbnailURL := "th", uploadDate := 0, isLive := false,
    liveStartTime := 0, liveEndTime := 0, metadataJSON := "",
    filePath := some ".music/My Song [v1].mp3", fileSize := 0, fileChecksum := none,
    validationStatus := "pending", lastValidated := some 0, downloadedAt := 0,
    createdAt := 0, updatedAt := 0 }

/-- A concrete listing entry with identifier `a`. -/
def vidA : VideoInfo :=
  { id := "a", title := "ta", description := "", duration := 1, channel := "c",
    channelID := "ci", playlistID := "", viewCount := 0, thumbnail := "",
    uploadDate := "", liveStartTime := 0, liveEndTime := 0, metadataJSON := "" }

/-- A concrete listing entry with identifier `b`. -/
def vidB : VideoInfo :=
  { id := "b", title := "tb", description := "", duration := 1, channel := "c",
    channelID := "ci", playlistID := "", viewCount := 0, thumbnail := "",
    uploadDate := "", liveStartTime := 0, liveEndTime := 0, metadataJSON := "" }

/-- A concrete listing entry with identifier `c`. -/
def vidC : VideoInfo :=
  { id := "c", title := "tc", description := "", duration := 1, channel := "c",
    channelID := "ci", playlistID := "", viewCount := 0, thumbnail := "",
    uploadDate := "", liveStartTime := 0, liveEndTime := 0, metadataJSON := "" }

/-- A download oracle that fails exactly on item `b`. -/
def dlBfails : String → String → Except String (String × Int) :=
  fun id _ => if id = "b" then Except.error "fetch failed" else Except.ok ("out.mp3", 10)

/-- A download oracle that always succeeds. -/
def dlOk : String → String → Except String (String × Int) :=
  fun _ _ => Except.ok ("out.mp3", 10)

theorem map_eq_self_of_mem {α : Type} (l : List α) (f : α → α)
    (h : ∀ a ∈ l, f a = a) : l.map f = l := by
  induction l with
  | nil => rfl
  | cons a t ih =>
    simp only [List.map_cons, h a (List.mem_cons_self a t),
      ih fun b hb => h b (List.mem_cons_of_mem a hb)]

theorem music_path_ne_empty (s t : String) :
    ".music/" ++ s ++ " [" ++ t ++ "].mp3" ≠ "" := by
  intro h
  have h2 := congrArg String.length h
  rw [String.length_append, String.length_append, String.length_append,
    String.length_append] at h2
  have e1 : (".music/" : String).length = 7 := by decide
  have e2 : (" [" : String).length = 2 := by decide
  have e3 : ("].mp3" : String).length = 5 := by decide
  have e4 : ("" : String).length = 0 := by decide
  rw [e1, e2, e3, e4] at h2
  omega

theorem validate_foldl (stat : String → StatResult) (now : Int) (l : List VideoRow) :
    ∀ (n : Nat) (acc : List VideoRow),
      l.foldl (validateStep stat now) (n, acc) =
        (n + (l.filter hasFilePath).length, acc ++ l.map (validateRowModel stat now)) := by
  induction l with
  | nil => intro n acc; simp
  | cons v t ih =>
    intro n acc
    simp only [List.foldl_cons]
    rcases hfp : v.filePath with _ | p
    · have hstep : validateStep stat now (n, acc) v = (n, acc ++ [v]) := by
        simp [validateStep, hfp]
      have hmodel : validateRowModel stat now v = v := by
        simp [validateRowModel, hfp]
      have hhas : hasFilePath v = false := by simp [hasFilePath, hfp]
      rw [hstep, ih]
      simp [List.filter_cons, hhas, hmodel]
    · by_cases hp : p = ""
      · subst hp
        have hstep : validateStep stat now (n, acc) v = (n, acc ++ [v]) := by
          simp [validateStep, hfp]
        have hmodel : validateRowModel stat now v = v := by
          simp [validateRowModel, hfp]
        have hhas : hasFilePath v = false := by simp [hasFilePath, hfp]
        rw [hstep, ih]
        simp [List.filter_cons, hhas, hmodel]
      · have hstep : validateStep stat now (n, acc) v =
            (n + 1, acc ++
              [{ v with validationStatus := statStatus (stat p),
                        lastValidated := some now, updatedAt := now }]) := by
          simp [validateStep, hfp, hp]
        have hmodel : validateRowModel stat now v =
            { v with validationStatus := statStatus (stat p),
                      lastValidated := some now, updatedAt := now } := by
          simp [validateRowModel, hfp, hp]
        have hhas : hasFilePath v = true := by simp [hasFilePath, hfp, hp]
        rw [hstep, ih]
        simp only [List.filter_cons, hhas, if_true, List.length_cons, List.map_cons, hmodel,
          List.append_assoc, List.singleton_append, Prod.mk.injEq]
        exact ⟨by omega, trivial⟩

theorem getOrCreate_videos (db : DB) (now : Int) (yid t : String) :
    (GetOrCreatePlaylist db now yid t).2.videos = db.videos := by
  unfold GetOrCreatePlaylist
  cases h : getPlaylist? db yid <;> simp [h]

theorem getOrCreate_finds (db : DB) (now : Int) (yid t : String) :
    getPlaylist? (GetOrCreatePlaylist db now yid t).2 yid =
      some (GetOrCreatePlaylist db now yid t).1 := by
  unfold GetOrCreatePlaylist getPlaylist?
  cases h : db.playlists.find? (fun p => p.youtubeID == yid) with
  | some p => simpa [getPlaylist?] using h
  | none =>
    simp only [getPlaylist?, h]
    rw [List.find?_append, h]
    simp

theorem getOrCreate_found (db : DB) (now : Int) (yid t : String) (p : PlaylistRow)
    (hp : getPlaylist? db yid = some p) :
    GetOrCreatePlaylist db now yid t = (p, db) := by
  unfold GetOrCreatePlaylist
  rw [hp]

theorem upsert_playlists (db : DB) (now : Int) (vid : String) (pid : Int)
    (pt : String) (md : VideoMetadata) (fp : String) :
    (upsertVideo db now vid pid pt md fp).playlists = db.playlists := by
  unfold upsertVideo
  split <;> rfl

theorem upsert_nextPlaylistId (db : DB) (now : Int) (vid : String) (pid : Int)
    (pt : String) (md : VideoMetadata) (fp : String) :
    (upsertVideo db now vid pid pt md fp).nextPlaylistId = db.nextPlaylistId := by
  unfold upsertVideo
  split <;> rfl

theorem any_youtubeID_map (l : List VideoRow) (f : VideoRow → VideoRow)
    (hf : ∀ v, (f v).youtubeID = v.youtubeID) (x : String) :
    ((l.map f).any fun v => v.youtubeID == x) = (l.any fun v => v.youtubeID == x) := by
  simp only [List.any_map]
  congr 1
  funext v
  simp [Function.comp_apply, hf]

theorem videoExists_upsert (db : DB) (now : Int) (vid : String) (pid : Int)
    (pt : String) (md : VideoMetadata) (fp : String) (x : String) :
    VideoExists (upsertVideo db now vid pid pt md fp) x =
      (VideoExists db x || x == vid) := by
  by_cases hx : x = vid
  · subst hx
    simp only [upsertVideo, VideoExists]
    split
    · next hany =>
      rw [any_youtubeID_map _ _ (fun v => by by_cases h : v.youtubeID = x <;> simp [h])]
      simp [hany]
    · simp [List.any_append]
  · simp only [upsertVideo, VideoExists]
    split
    · next hany =>
      rw [any_youtubeID_map _ _ (fun v => by by_cases h : v.youtubeID = vid <;> simp [h])]
      simp [beq_iff_eq, hx]
    · simp [List.any_append, beq_eq_false_iff_ne.mpr hx, beq_eq_false_iff_ne.mpr (Ne.symm hx)]

theorem videoExists_updateFileInfo (db : DB) (now : Int) (yid fp : String)
    (sz : Int) (x : String) :
    VideoExists (UpdateFileInfo db now yid fp sz) x = VideoExists db x := by
  simp only [UpdateFileInfo, VideoExists]
  exact any_youtubeID_map _ _ (fun v => by by_cases h : v.youtubeID = yid <;> simp [h]) x

theorem addVideo_videos_eq_upsert (db : DB) (now : Int)
    (vid plYid plTitle : String) (md : VideoMetadata) :
    (AddVideo db now vid plYid plTitle md).videos =
      (upsertVideo (GetOrCreatePlaylist db now plYid plTitle).2 now vid
        (GetOrCreatePlaylist db now plYid plTitle).1.id plTitle md
        (".music/" ++ sanitizeFilename md.title ++ " [" ++ vid ++ "].mp3")).videos := by
  rfl

theorem videoExists_addVideo (db : DB) (now : Int)
    (vid plYid plTitle : String) (md : VideoMetadata) (x : String) :
    VideoExists (AddVideo db now vid plYid plTitle md) x =
      (VideoExists db x || x == vid) := by
  unfold VideoExists
  rw [addVideo_videos_eq_upsert]
  have h1 := videoExists_upsert (GetOrCreatePlaylist db now plYid plTitle).2 now vid
    (GetOrCreatePlaylist db now plYid plTitle).1.id plTitle md
    (".music/" ++ sanitizeFilename md.title ++ " [" ++ vid ++ "].mp3") x
  unfold VideoExists at h1
  rw [h1, getOrCreate_videos]

theorem find?_youtubeID_map (l : List PlaylistRow) (u : PlaylistRow → PlaylistRow)
    (hu : ∀ r, (u r).youtubeID = r.youtubeID) (yid : String) :
    (l.map u).find? (fun p => p.youtubeID == yid) =
      (l.find? fun p => p.youtubeID == yid).map u := by
  rw [List.find?_map]
  have hcomp : ((fun p : PlaylistRow => p.youtubeID == yid) ∘ u) =
      fun p : PlaylistRow => p.youtubeID == yid := by
    funext r
    simp [Function.comp_apply, hu]
  rw [hcomp]

theorem videoExists_congr (db1 db2 : DB) (h : db1.videos = db2.videos) (x : String) :
    VideoExists db1 x = VideoExists db2 x := by
  unfold VideoExists
  rw [h]

theorem processPlaylist_ok (vids : List VideoInfo)
    (download : String → String → Except String (String × Int))
    (parseDate : String → Int) (db : DB) (now : Int) (url name : String)
    (hurl : extractPlaylistID url ≠ "") :
    ProcessPlaylist (Except.ok vids) download parseDate db now url name =
      (let pr := GetOrCreatePlaylist db now (extractPlaylistID url) name
       let videos1 := (vids.filter fun e => e.id ≠ "").map
         fun e => { e with playlistID := extractPlaylistID url }
       if videos1.length = 0 then { db := pr.2, callbacks := [], err := none }
       else
         let r := processVideos download parseDate now pr.1.youtubeID pr.1.title name
           videos1 pr.2 []
         { db := r.1, callbacks := r.2, err := none }) := by
  simp only [ProcessPlaylist, getPlaylistVideos, if_neg hurl]

theorem processVideos_cons_known
    (download : String → String → Except String (String × Int))
    (parseDate : String → Int) (now : Int) (plYid plTitle plName : String)
    (v : VideoInfo) (rest : List VideoInfo) (db : DB) (cbs : List (String × Bool))
    (hex : VideoExists db v.id = true) :
    processVideos download parseDate now plYid plTitle plName (v :: rest) db cbs =
      processVideos download parseDate now plYid plTitle plName rest db
        (cbs ++ [(v.id, false)]) := by
  simp only [processVideos, hex, if_true]

theorem processVideos_cons_fail
    (download : String → String → Except String (String × Int))
    (parseDate : String → Int) (now : Int) (plYid plTitle plName : String)
    (v : VideoInfo) (rest : List VideoInfo) (db : DB) (cbs : List (String × Bool))
    (e : String)
    (hex : VideoExists db v.id = false)
    (he : download v.id plName = Except.error e) :
    processVideos download parseDate now plYid plTitle plName (v :: rest) db cbs =
      processVideos download parseDate now plYid plTitle plName rest db cbs := by
  simp only [processVideos, hex, Bool.false_eq_true, if_false, he]

theorem processVideos_cons_fetch
    (download : String → String → Except String (String × Int))
    (parseDate : String → Int) (now : Int) (plYid plTitle plName : String)
    (v : VideoInfo) (rest : List VideoInfo) (db : DB) (cbs : List (String × Bool))
    (fp : String) (sz : Int)
    (hex : VideoExists db v.id = false)
    (hok : download v.id plName = Except.ok (fp, sz)) :
    processVideos download parseDate now plYid plTitle plName (v :: rest) db cbs =
      processVideos download parseDate now plYid plTitle plName rest
        (UpdateFileInfo
          (AddVideo db now v.id plYid plTitle (buildMetadata parseDate v)) now v.id fp sz)
        (cbs ++ [(v.id, true)]) := by
  simp only [processVideos, hex, Bool.false_eq_true, if_false, hok]

theorem videoExists_processVideos_mono
    (download : String → String → Except String (String × Int))
    (parseDate : String → Int) (now : Int) (plYid plTitle plName : String)
    (l : List VideoInfo) (x : String) :
    ∀ (db : DB) (cbs : List (String × Bool)), VideoExists db x = true →
      VideoExists (processVideos download parseDate now plYid plTitle plName l db cbs).1 x = true := by
  induction l with
  | nil =>
    intro db cbs h
    simpa [processVideos] using h
  | cons v t ih =>
    intro db cbs h
    simp only [processVideos]
    by_cases hex : VideoExists db v.id = true
    · simp only [hex, if_true]
      exact ih _ _ h
    · simp only [hex, if_false, Bool.false_eq_true]
      cases hdl : download v.id plName with
      | error e => exact ih _ _ h
      | ok r =>
        apply ih
        rw [videoExists_updateFileInfo, videoExists_addVideo, h]
        simp

theorem processVideos_all_exist
    (download : String → String → Except String (String × Int))
    (parseDate : String → Int) (now : Int) (plYid plTitle plName : String)
    (l : List VideoInfo) :
    ∀ (db : DB) (cbs : List (String × Bool)),
      (∀ v ∈ l, VideoExists db v.id = true) →
      processVideos download parseDate now plYid plTitle plName l db cbs =
        (db, cbs ++ l.map fun v => (v.id, false)) := by
  induction l with
  | nil =>
    intro db cbs h
    simp [processVideos]
  | cons v t ih =>
    intro db cbs h
    have hv := h v (List.mem_cons_self v t)
    simp only [processVideos, hv, if_true]
    rw [ih _ _ fun w hw => h w (List.mem_cons_of_mem v hw)]
    simp

theorem processVideos_covers
    (download : String → String → Except String (String × Int))
    (parseDate : String → Int) (now : Int) (plYid plTitle plName : String)
    (l : List VideoInfo)
    (hdl : ∀ v ∈ l, ∃ fp sz, download v.id plName = Except.ok (fp, sz)) :
    ∀ (db : DB) (cbs : List (String × Bool)), ∀ v ∈ l,
      VideoExists (processVideos download parseDate now plYid plTitle plName l db cbs).1 v.id = true := by
  induction l with
  | nil =>
    intro db cbs v hv
    exact absurd hv (List.not_mem_nil v)
  | cons w t ih =>
    intro db cbs v hv
    have ihs := ih fun u hu => hdl u (List.mem_cons_of_mem w hu)
    rcases List.mem_cons.mp hv with hvw | hvt
    · subst hvw
      by_cases hex : VideoExists db v.id = true
      · simp only [processVideos, hex, if_true]
        exact videoExists_processVideos_mono download parseDate now plYid plTitle plName
          t v.id _ _ hex
      · obtain ⟨fp, sz, hok⟩ := hdl v (List.mem_cons_self v t)
        simp only [processVideos, hex, if_false, Bool.false_eq_true, hok]
        apply videoExists_processVideos_mono
        rw [videoExists_updateFileInfo, videoExists_addVideo]
        simp
    · by_cases hex : VideoExists db w.id = true
      · simp only [processVideos, hex, if_true]
        exact ihs _ _ v hvt
      · simp only [processVideos, hex, if_false, Bool.false_eq_true]
        cases hdlw : download w.id plName with
        | error e => exact ihs _ _ v hvt
        | ok r => exact ihs _ _ v hvt

/-! ### Claim theorems -/

/-- C1 (code bug): ingesting the same playlist reference first under name
`T1` and then under name `T2` does NOT leave a row titled `T2`.  The exported
`GetOrCreatePlaylist` used by ingestion returns the existing row without
updating its title (one row, still titled `T1`), while the transactional
`getOrCreatePlaylist` — whose body contains the title update the spec
describes — falls through to an unconditional second INSERT of the same
`youtube_id` and dies on the UNIQUE constraint. -/
theorem c1_playlist_title_not_refreshed :
    (((GetOrCreatePlaylist (GetOrCreatePlaylist emptyDB 0 "PL1" "T1").2 1 "PL1" "T2").2.playlists.filter
        fun p => p.youtubeID == "PL1").length = 1) ∧
    (((getPlaylist? (GetOrCreatePlaylist (GetOrCreatePlaylist emptyDB 0 "PL1" "T1").2 1 "PL1" "T2").2 "PL1").map
        fun p => p.title) = some "T1") ∧
    getOrCreatePlaylistTx (GetOrCreatePlaylist emptyDB 0 "PL1" "T1").2 1 "PL1" "T2" =
      Except.error "failed to create playlist: UNIQUE constraint failed: playlists.youtube_id" := by
  exact ⟨by decide, by decide, rfl⟩

/-- C2 counterexample: the video_count/row-count invariant does not survive
every committed transaction.  (a) `CleanupMissingFiles` deletes the only
video row of playlist `PL1` (status `missing`, file absent) but leaves the
stored `video_count` at 1 while 0 rows reference the playlist.  (b) Re-adding
an existing video under a second playlist moves the row, recomputes the count
only for the new playlist, and leaves the old playlist's count stale at 1. -/
theorem c2_video_count_drift_cex :
    (let db1 := AddVideo emptyDB 0 "v1" "PL1" "My List" sampleMetadata
     let db2 := (ValidateFiles (fun _ => StatResult.notExist) db1 1).2
     let db3 := (CleanupMissingFiles (fun _ => StatResult.notExist) db2).2
     ((getPlaylist? db3 "PL1").map fun p => p.videoCount) = some 1 ∧
       countVideos db3 1 = 0 ∧ db3.videos = []) ∧
    (let dbM := AddVideo (AddVideo emptyDB 0 "v" "PL1" "A" sampleMetadata) 1
       "v" "PL2" "B" sampleMetadata
     ((getPlaylist? dbM "PL1").map fun p => p.videoCount) = some 1 ∧
       countVideos dbM 1 = 0) := by
  exact ⟨⟨by decide, by decide, by decide⟩, ⟨by decide, by decide⟩⟩

/-- C2 (amended): after any committed `AddVideo` transaction, the
`video_count` stored on the playlist row identified by the supplied playlist
reference equals the number of video rows whose `playlist_id` references that
row.  (`CleanupMissingFiles`, and the playlist a video is moved away from,
are not covered: neither recomputes the stale count — see the
counterexample.) -/
theorem c2_addvideo_video_count (db : DB) (now : Int)
    (vid plYid plTitle : String) (md : VideoMetadata) (q : PlaylistRow)
    (hq : getPlaylist? (AddVideo db now vid plYid plTitle md) plYid = some q) :
    q.videoCount = (countVideos (AddVideo db now vid plYid plTitle md) q.id : Int) := by
  have hfind := getOrCreate_finds db now plYid plTitle
  simp only [AddVideo] at hq ⊢
  set pr := GetOrCreatePlaylist db now plYid plTitle with hpr
  set fp := ".music/" ++ sanitizeFilename md.title ++ " [" ++ vid ++ "].mp3" with hfp
  set db2 := upsertVideo pr.2 now vid pr.1.id plTitle md fp with hdb2
  set cnt : Int := (countVideos db2 pr.1.id : Int) with hcnt
  set u := fun p : PlaylistRow =>
    if p.id == pr.1.id then { p with lastChecked := now, updatedAt := now, videoCount := cnt }
    else p with hu
  have hu2 : ∀ r, (u r).youtubeID = r.youtubeID := by
    intro r
    rw [hu]
    by_cases h : r.id == pr.1.id <;> simp [h]
  simp only [getPlaylist?] at hq
  rw [find?_youtubeID_map _ u hu2] at hq
  have hg2 : db2.playlists.find? (fun p => p.youtubeID == plYid) = some pr.1 := by
    simp only [getPlaylist?] at hfind
    rw [hdb2, upsert_playlists]
    exact hfind
  rw [hg2] at hq
  simp only [Option.map_some'] at hq
  have hqe : u pr.1 = q := by injection hq
  rw [← hqe, hu]
  simp only [beq_self_eq_true, if_true, countVideos]
  rw [hcnt]
  simp only [countVideos]

/-- C2 witness: the amended count invariant, instantiated on a fresh store
with one AddVideo call. -/
theorem c2_addvideo_video_count_witness :
    ∃ q : PlaylistRow,
      getPlaylist? (AddVideo emptyDB 0 "v1" "PL1" "T" sampleMetadata) "PL1" = some q ∧
      q.videoCount =
        (countVideos (AddVideo emptyDB 0 "v1" "PL1" "T" sampleMetadata) q.id : Int) := by
  have hq : getPlaylist? (AddVideo emptyDB 0 "v1" "PL1" "T" sampleMetadata) "PL1" =
      some { id := 1, youtubeID := "PL1", title := "T", description := none,
             thumbnail := none, channel := none, channelID := none,
             videoCount := 1, lastChecked := 0, createdAt := 0, updatedAt := 0 } := by
    decide
  exact ⟨_, hq, c2_addvideo_video_count emptyDB 0 "v1" "PL1" "T" sampleMetadata _ hq⟩

/-- C3 counterexample: on a fresh store, a `ProcessPlaylist` call whose
listing step fails does return an error, but the store is NOT untouched: the
playlist row for the reference has been created by the get-or-create step
that the source runs before listing. -/
theorem c3_listing_failure_creates_playlist_cex :
    (let r := ProcessPlaylist (Except.error "boom") (fun _ _ => Except.error "")
       (fun _ => 0) emptyDB 0 "PL123" "My Playlist"
     r.err.isSome = true ∧ (getPlaylist? r.db "PL123").isSome = true ∧ r.db ≠ emptyDB) ∧
    getPlaylist? emptyDB "PL123" = none := by
  exact ⟨⟨by decide, by decide, by decide⟩, by decide⟩

/-- C3 (amended): when the remote listing step fails, `ProcessPlaylist`
returns an error, makes no callback, and creates or modifies no item row;
the store however already holds the result of the preceding get-or-create
step for the playlist row — in particular, when the playlist row already
existed the whole store is unchanged, but on first encounter the playlist row
has been created. -/
theorem c3_listing_failure_no_item_rows (db : DB) (now : Int) (url name e : String)
    (download : String → String → Except String (String × Int)) (parseDate : String → Int)
    (hurl : extractPlaylistID url ≠ "") :
    (ProcessPlaylist (Except.error e) download parseDate db now url name).err.isSome = true ∧
    (ProcessPlaylist (Except.error e) download parseDate db now url name).callbacks = [] ∧
    (ProcessPlaylist (Except.error e) download parseDate db now url name).db.videos = db.videos ∧
    (ProcessPlaylist (Except.error e) download parseDate db now url name).db =
        (GetOrCreatePlaylist db now (extractPlaylistID url) name).2 ∧
    ((getPlaylist? db (extractPlaylistID url)).isSome →
        (ProcessPlaylist (Except.error e) download parseDate db now url name).db = db) := by
  simp only [ProcessPlaylist, getPlaylistVideos, if_neg hurl]
  refine ⟨rfl, trivial, getOrCreate_videos db now _ name, trivial, ?_⟩
  intro hsome
  obtain ⟨p, hp⟩ := Option.isSome_iff_exists.mp hsome
  rw [getOrCreate_found db now _ name p hp]

/-- C3 witness: the amended statement at a direct playlist reference on a
fresh store. -/
theorem c3_listing_failure_no_item_rows_witness :
    (ProcessPlaylist (Except.error "boom") (fun _ _ => Except.error "") (fun _ => 0)
        emptyDB 0 "PL123" "Name").err.isSome = true ∧
    (ProcessPlaylist (Except.error "boom") (fun _ _ => Except.error "") (fun _ => 0)
        emptyDB 0 "PL123" "Name").callbacks = [] ∧
    (ProcessPlaylist (Except.error "boom") (fun _ _ => Except.error "") (fun _ => 0)
        emptyDB 0 "PL123" "Name").db.videos = emptyDB.videos ∧
    (ProcessPlaylist (Except.error "boom") (fun _ _ => Except.error "") (fun _ => 0)
        emptyDB 0 "PL123" "Name").db =
      (GetOrCreatePlaylist emptyDB 0 (extractPlaylistID "PL123") "Name").2 ∧
    ((getPlaylist? emptyDB (extractPlaylistID "PL123")).isSome →
        (ProcessPlaylist (Except.error "boom") (fun _ _ => Except.error "") (fun _ => 0)
            emptyDB 0 "PL123" "Name").db = emptyDB) :=
  c3_listing_failure_no_item_rows emptyDB 0 "PL123" "Name" "boom"
    (fun _ _ => Except.error "") (fun _ => 0) (by decide)

theorem extractPlaylistID_eq_empty_iff (url : String) :
    extractPlaylistID url = "" ↔ url = "" := by
  constructor
  · intro h
    unfold extractPlaylistID at h
    split at h
    · exact h
    · split at h
      · dsimp only at h
        split at h
        · split at h
          · next hid => exact absurd h hid
          · exact h
        · exact h
      · exact h
  · intro h
    subst h
    decide

/-- C4 counterexample: a youtube reference that carries no `list=` token is
NOT rejected: `extractPlaylistID` returns the whole reference, and
`ProcessPlaylist` proceeds without the invalid-reference error, creating a
playlist row keyed by the full reference — where the claim demands an
invalid-reference error and an untouched store. -/
theorem c4_invalid_reference_cex :
    extractPlaylistID "https://www.youtube.com/watch?v=abc" =
      "https://www.youtube.com/watch?v=abc" ∧
    (let r := ProcessPlaylist (Except.ok []) (fun _ _ => Except.error "") (fun _ => 0)
       emptyDB 0 "https://www.youtube.com/watch?v=abc" "Name"
     r.err = none ∧
       (getPlaylist? r.db "https://www.youtube.com/watch?v=abc").isSome = true) := by
  exact ⟨by decide, by decide, by decide⟩

/-- C4 (amended): `ProcessPlaylist` fails with the invalid-reference error
exactly when the supplied reference is the empty string —
`extractPlaylistID` yields `""` only on `""` — in which case no store row is
created or modified and no callback is made; for every non-empty reference
the call proceeds, using whatever `extractPlaylistID` returns (the `list=`
token, or the full reference when no token is present) as the playlist
identifier under which the playlist row is stored. -/
theorem c4_invalid_reference_amended :
    (∀ url : String, extractPlaylistID url = "" ↔ url = "") ∧
    (∀ (db : DB) (now : Int) (name : String)
        (listing : Except String (List VideoInfo))
        (download : String → String → Except String (String × Int))
        (parseDate : String → Int),
        ProcessPlaylist listing download parseDate db now "" name =
          { db := db, callbacks := [], err := some ("invalid playlist URL: " ++ "") }) ∧
    (∀ (db : DB) (now : Int) (url name : String)
        (download : String → String → Except String (String × Int))
        (parseDate : String → Int), url ≠ "" →
        (ProcessPlaylist (Except.ok []) download parseDate db now url name).err = none ∧
        (getPlaylist? (ProcessPlaylist (Except.ok []) download parseDate db now url name).db
          (extractPlaylistID url)).isSome = true) := by
  refine ⟨extractPlaylistID_eq_empty_iff, ?_, ?_⟩
  · intro db now name listing download parseDate
    simp [ProcessPlaylist, show extractPlaylistID "" = "" from by decide]
  · intro db now url name download parseDate hurl
    have hpid : extractPlaylistID url ≠ "" :=
      fun h => hurl ((extractPlaylistID_eq_empty_iff url).mp h)
    simp only [ProcessPlaylist, getPlaylistVideos, if_neg hpid, List.filter_nil,
      List.map_nil, List.length_nil, if_true, if_pos]
    constructor
    · trivial
    · rw [getOrCreate_finds]
      rfl

/-- C4 witness: the non-empty-reference conjunct discharged at the direct
reference `PL` on a fresh store. -/
theorem c4_invalid_reference_amended_witness :
    (ProcessPlaylist (Except.ok []) (fun _ _ => Except.error "") (fun _ => 0)
        emptyDB 0 "PL" "Name").err = none ∧
    (getPlaylist? (ProcessPlaylist (Except.ok []) (fun _ _ => Except.error "") (fun _ => 0)
        emptyDB 0 "PL" "Name").db (extractPlaylistID "PL")).isSome = true :=
  c4_invalid_reference_amended.2.2 emptyDB 0 "PL" "Name" (fun _ _ => Except.error "")
    (fun _ => 0) (by decide)

/-- C7: `calculateInterval` returns the 5-minute interval exactly when
`now - lastChange < 24h` and the 15-minute interval when
`now - lastChange ≥ 24h`, recomputed from `lastChange` on every call; at
23h59m the short interval is returned, and at 24h00m00s and 24h00m01s the
long one. -/
theorem c7_cadence_interval :
    (∀ now lastChange : Int, now - lastChange < 24 * hour →
        calculateInterval now lastChange = 5 * minute) ∧
    (∀ now lastChange : Int, 24 * hour ≤ now - lastChange →
        calculateInterval now lastChange = 15 * minute) ∧
    calculateInterval (23 * hour + 59 * minute) 0 = 5 * minute ∧
    calculateInterval (24 * hour + 1 * second) 0 = 15 * minute ∧
    calculateInterval (24 * hour) 0 = 15 * minute := by
  refine ⟨?_, ?_, by decide, by decide, by decide⟩
  · intro now lc h
    simp [calculateInterval, h]
  · intro now lc h
    simp [calculateInterval, not_lt.mpr h]

/-- C7 witness: the two implications of `c7_cadence_interval` discharged at
concrete instants. -/
theorem c7_cadence_interval_witness :
    calculateInterval 0 0 = 5 * minute ∧
    calculateInterval (25 * hour) 0 = 15 * minute :=
  ⟨c7_cadence_interval.1 0 0 (by decide),
   c7_cadence_interval.2.1 (25 * hour) 0 (by decide)⟩

/-- C8: `ValidateFiles` returns the number of rows with a non-empty file
location; it rewrites the table by exactly the row-local transformation
`validateRowModel` — every checked row gets `valid`/`missing`/`error`
according to the stat outcome and has `last_validated` and `updated_at`
stamped with the one `now` of the pass, every other row (and the `playlists`
table) is untouched. -/
theorem c8_validate_files (stat : String → StatResult) (db : DB) (now : Int) :
    (ValidateFiles stat db now).1 = (db.videos.filter hasFilePath).length ∧
    (ValidateFiles stat db now).2.playlists = db.playlists ∧
    (ValidateFiles stat db now).2.videos = db.videos.map (validateRowModel stat now) ∧
    (∀ v ∈ db.videos, ∀ p, v.filePath = some p → p ≠ "" →
      (validateRowModel stat now v).lastValidated = some now ∧
      (validateRowModel stat now v).updatedAt = now ∧
      (stat p = StatResult.ok → (validateRowModel stat now v).validationStatus = "valid") ∧
      (stat p = StatResult.notExist →
        (validateRowModel stat now v).validationStatus = "missing") ∧
      (stat p = StatResult.otherError →
        (validateRowModel stat now v).validationStatus = "error")) ∧
    (∀ v ∈ db.videos, hasFilePath v = false → validateRowModel stat now v = v) := by
  have hf := validate_foldl stat now db.videos 0 []
  refine ⟨?_, ?_, ?_, ?_, ?_⟩
  · simp [ValidateFiles, hf]
  · simp [ValidateFiles, hf]
  · simp [ValidateFiles, hf]
  · intro v hv p hp hpne
    refine ⟨by simp [validateRowModel, hp, hpne], by simp [validateRowModel, hp, hpne],
      ?_, ?_, ?_⟩ <;> intro h <;> simp [validateRowModel, hp, hpne, h, statStatus]
  · intro v hv hfp
    unfold validateRowModel
    cases hp : v.filePath with
    | none => rfl
    | some p =>
      have hpe : p = "" := by
        by_contra hc
        rw [hasFilePath, hp] at hfp
        simp [hc] at hfp
      subst hpe
      simp

/-- C8 witness: a pending row with path `f.mp3` is marked `missing` by a
pass whose stat oracle reports absence. -/
theorem c8_validate_files_witness :
    (validateRowModel (fun _ => StatResult.notExist) 7 sampleRow).validationStatus =
      "missing" :=
  ((c8_validate_files (fun _ => StatResult.notExist)
      { playlists := [], videos := [sampleRow], nextPlaylistId := 1 } 7).2.2.2.1
    sampleRow (by decide) "f.mp3" (by decide) (by decide)).2.2.2.1 rfl

/-- C9: `UpdateFileInfo` on a missing row is a successful no-op (the store is
unchanged), and on the row with the given ID it sets the file location, the
size, status `valid` and the validation timestamp `now` (plus `updated_at`),
leaving every other row as it was. -/
theorem c9_update_file_info (db : DB) (now : Int) (yid path : String) (size : Int) :
    (VideoExists db yid = false → UpdateFileInfo db now yid path size = db) ∧
    (∀ v ∈ (UpdateFileInfo db now yid path size).videos,
      (v.youtubeID = yid →
        v.filePath = some path ∧ v.fileSize = size ∧
        v.validationStatus = "valid" ∧ v.lastValidated = some now ∧ v.updatedAt = now) ∧
      (v.youtubeID ≠ yid → v ∈ db.videos)) := by
  constructor
  · intro hno
    simp only [UpdateFileInfo]
    have hall : ∀ v ∈ db.videos, (v.youtubeID == yid) = false := by
      intro v hv
      by_contra hc
      have : db.videos.any (fun w => w.youtubeID == yid) = true :=
        List.any_eq_true.mpr ⟨v, hv, by simpa using hc⟩
      rw [VideoExists] at hno
      simp [this] at hno
    have hmap : db.videos.map (fun v =>
        if v.youtubeID == yid then
          { v with filePath := some path, fileSize := size,
                   validationStatus := "valid", lastValidated := some now,
                   updatedAt := now }
        else v) = db.videos :=
      map_eq_self_of_mem _ _ fun v hv => by simp [hall v hv]
    rw [hmap]
  · intro v hv
    simp only [UpdateFileInfo] at hv
    obtain ⟨w, hw, hwv⟩ := List.mem_map.mp hv
    by_cases h : w.youtubeID = yid
    · constructor
      · intro _
        rw [← hwv]
        simp [h]
      · intro hne
        exfalso
        apply hne
        rw [← hwv]
        simp [h]
    · constructor
      · intro heq
        exfalso
        apply h
        rw [← hwv] at heq
        simpa [beq_eq_false_iff_ne.mpr h] using heq
      · intro _
        rw [← hwv]
        simpa [beq_eq_false_iff_ne.mpr h] using hw
/-- C9 witness: updating a non-existent row on a fresh store leaves it
unchanged and reports no error. -/
theorem c9_update_file_info_witness :
    UpdateFileInfo emptyDB 0 "x" "p.mp3" 1 = emptyDB :=
  (c9_update_file_info emptyDB 0 "x" "p.mp3" 1).1 (by decide)

/-- C10: every row `AddVideo` creates or overwrites carries the locally
generated non-empty path `.music/<sanitized title> [<id>].mp3`, `file_size`
0, status `pending`, and `last_validated` stamped with the call's `now` —
before any real download result is recorded. -/
theorem c10_addvideo_file_path (db : DB) (now : Int)
    (vid plYid plTitle : String) (md : VideoMetadata) :
    VideoExists (AddVideo db now vid plYid plTitle md) vid = true ∧
    (∀ v ∈ (AddVideo db now vid plYid plTitle md).videos, v.youtubeID = vid →
      v.filePath = some (".music/" ++ sanitizeFilename md.title ++ " [" ++ vid ++ "].mp3") ∧
      v.fileSize = 0 ∧ v.validationStatus = "pending" ∧ v.lastValidated = some now ∧
      (∀ p, v.filePath = some p → p ≠ "")) := by
  constructor
  · rw [videoExists_addVideo]
    simp
  · intro v hv hveq
    rw [addVideo_videos_eq_upsert] at hv
    set db1 := (GetOrCreatePlaylist db now plYid plTitle).2 with hdb1
    set pid := (GetOrCreatePlaylist db now plYid plTitle).1.id with hpid
    set fp := ".music/" ++ sanitizeFilename md.title ++ " [" ++ vid ++ "].mp3" with hfp
    simp only [upsertVideo] at hv
    split at hv
    · next hany =>
      obtain ⟨w, hw, hwv⟩ := List.mem_map.mp hv
      by_cases h : w.youtubeID = vid
      · rw [← hwv]
        simp only [h, beq_self_eq_true, if_true]
        refine ⟨trivial, trivial, trivial, trivial, ?_⟩
        intro p hp
        have hpfp : p = fp := by
          have h3 := hp
          simp only [Option.some.injEq] at h3
          exact h3.symm
        rw [hpfp, hfp]
        exact music_path_ne_empty _ _
      · exfalso
        apply h
        rw [← hwv] at hveq
        simpa [beq_eq_false_iff_ne.mpr h] using hveq
    · next hany =>
      rcases List.mem_append.mp hv with hold | hnew
      · exfalso
        apply hany
        exact List.any_eq_true.mpr ⟨v, hold, by simp [hveq]⟩
      · have hvn : v = _ := List.mem_singleton.mp hnew
        rw [hvn]
        refine ⟨rfl, rfl, rfl, rfl, ?_⟩
        intro p hp
        have hpfp : p = fp := by
          have h3 := hp
          simp only [Option.some.injEq] at h3
          exact h3.symm
        rw [hpfp, hfp]
        exact music_path_ne_empty _ _

/-- C5: per-item failure isolation.  On a 3-item listing where no item is
known yet, item 2's fetch fails and items 1 and 3 fetch fine,
`ProcessPlaylist` returns success, items 1 and 3 exist in the store
afterwards, item 2 does not, and the callback fired with `downloaded = true`
for items 1 and 3 only. -/
theorem c5_per_item_isolation
    (v1 v2 v3 : VideoInfo) (db : DB) (now : Int) (url name e2 : String)
    (download : String → String → Except String (String × Int)) (parseDate : String → Int)
    (p1 p3 : String) (s1 s3 : Int)
    (hurl : extractPlaylistID url ≠ "")
    (hid1 : v1.id ≠ "") (hid2 : v2.id ≠ "") (hid3 : v3.id ≠ "")
    (hne21 : v2.id ≠ v1.id) (hne31 : v3.id ≠ v1.id) (hne32 : v3.id ≠ v2.id)
    (hex1 : VideoExists db v1.id = false) (hex2 : VideoExists db v2.id = false)
    (hex3 : VideoExists db v3.id = false)
    (hd1 : download v1.id name = Except.ok (p1, s1))
    (hd2 : download v2.id name = Except.error e2)
    (hd3 : download v3.id name = Except.ok (p3, s3)) :
    (ProcessPlaylist (Except.ok [v1, v2, v3]) download parseDate db now url name).err = none ∧
    VideoExists (ProcessPlaylist (Except.ok [v1, v2, v3]) download parseDate db now url name).db
      v1.id = true ∧
    VideoExists (ProcessPlaylist (Except.ok [v1, v2, v3]) download parseDate db now url name).db
      v2.id = false ∧
    VideoExists (ProcessPlaylist (Except.ok [v1, v2, v3]) download parseDate db now url name).db
      v3.id = true ∧
    (ProcessPlaylist (Except.ok [v1, v2, v3]) download parseDate db now url name).callbacks =
      [(v1.id, true), (v3.id, true)] := by
  rw [processPlaylist_ok [v1, v2, v3] download parseDate db now url name hurl]
  have hfil : List.filter (fun e => decide ¬(e.id = "")) [v1, v2, v3] = [v1, v2, v3] := by
    simp [hid1, hid2, hid3]
  simp only [hfil, List.map_cons, List.map_nil, List.length_cons, List.length_nil]
  rw [if_neg (by omega : ¬(0 + 1 + 1 + 1 = 0))]
  dsimp only
  set pid := extractPlaylistID url with hpidd
  set pr := GetOrCreatePlaylist db now pid name with hpr
  set w1 : VideoInfo := { v1 with playlistID := pid } with hw1
  set w2 : VideoInfo := { v2 with playlistID := pid } with hw2
  set w3 : VideoInfo := { v3 with playlistID := pid } with hw3
  have hw1id : w1.id = v1.id := rfl
  have hw2id : w2.id = v2.id := rfl
  have hw3id : w3.id = v3.id := rfl
  have hprv : pr.2.videos = db.videos := by
    rw [hpr]
    exact getOrCreate_videos db now pid name
  have hE1 : VideoExists pr.2 w1.id = false := by
    rw [hw1id, videoExists_congr pr.2 db hprv]
    exact hex1
  rw [processVideos_cons_fetch download parseDate now pr.1.youtubeID pr.1.title name
    w1 [w2, w3] pr.2 [] p1 s1 hE1 (hw1id ▸ hd1)]
  set db2 := UpdateFileInfo
    (AddVideo pr.2 now w1.id pr.1.youtubeID pr.1.title (buildMetadata parseDate w1))
    now w1.id p1 s1 with hdb2
  have hE2 : VideoExists db2 w2.id = false := by
    rw [hw2id, hdb2, videoExists_updateFileInfo, videoExists_addVideo,
      videoExists_congr pr.2 db hprv, hex2,
      beq_eq_false_iff_ne.mpr (show v2.id ≠ w1.id by rw [hw1id]; exact hne21)]
    rfl
  rw [processVideos_cons_fail download parseDate now _ _ name w2 [w3] db2 _ e2 hE2
    (hw2id ▸ hd2)]
  have hE3 : VideoExists db2 w3.id = false := by
    rw [hw3id, hdb2, videoExists_updateFileInfo, videoExists_addVideo,
      videoExists_congr pr.2 db hprv, hex3,
      beq_eq_false_iff_ne.mpr (show v3.id ≠ w1.id by rw [hw1id]; exact hne31)]
    rfl
  rw [processVideos_cons_fetch download parseDate now pr.1.youtubeID pr.1.title name
    w3 [] db2 _ p3 s3 hE3 (hw3id ▸ hd3)]
  set db3 := UpdateFileInfo
    (AddVideo db2 now w3.id pr.1.youtubeID pr.1.title (buildMetadata parseDate w3))
    now w3.id p3 s3 with hdb3
  simp only [processVideos]
  have hx1 : VideoExists db3 v1.id = true := by
    rw [hdb3, videoExists_updateFileInfo, videoExists_addVideo, hdb2,
      videoExists_updateFileInfo, videoExists_addVideo,
      videoExists_congr pr.2 db hprv, hex1]
    simp [hw1id]
  have hx2 : VideoExists db3 v2.id = false := by
    rw [hdb3, videoExists_updateFileInfo, videoExists_addVideo, hdb2,
      videoExists_updateFileInfo, videoExists_addVideo,
      videoExists_congr pr.2 db hprv, hex2]
    simp [hw1id, hw3id, beq_eq_false_iff_ne.mpr hne21,
      beq_eq_false_iff_ne.mpr (Ne.symm hne32)]
  have hx3 : VideoExists db3 v3.id = true := by
    rw [hdb3, videoExists_updateFileInfo, videoExists_addVideo]
    simp [hw3id]
  refine ⟨trivial, hx1, hx2, hx3, ?_⟩
  simp [hw1id, hw3id]

/-- C5 witness: the 3-item scenario instantiated with identifiers `a`, `b`,
`c` on a fresh store, the fetch for `b` failing. -/
theorem c5_per_item_isolation_witness :
    (ProcessPlaylist (Except.ok [vidA, vidB, vidC]) dlBfails (fun _ => 0)
        emptyDB 0 "PL5" "N").err = none ∧
    VideoExists (ProcessPlaylist (Except.ok [vidA, vidB, vidC]) dlBfails (fun _ => 0)
        emptyDB 0 "PL5" "N").db vidA.id = true ∧
    VideoExists (ProcessPlaylist (Except.ok [vidA, vidB, vidC]) dlBfails (fun _ => 0)
        emptyDB 0 "PL5" "N").db vidB.id = false ∧
    VideoExists (ProcessPlaylist (Except.ok [vidA, vidB, vidC]) dlBfails (fun _ => 0)
        emptyDB 0 "PL5" "N").db vidC.id = true ∧
    (ProcessPlaylist (Except.ok [vidA, vidB, vidC]) dlBfails (fun _ => 0)
        emptyDB 0 "PL5" "N").callbacks = [(vidA.id, true), (vidC.id, true)] :=
  c5_per_item_isolation vidA vidB vidC emptyDB 0 "PL5" "N" "fetch failed"
    dlBfails (fun _ => 0) "out.mp3" "out.mp3" 10 10
    (by decide) (by decide) (by decide) (by decide) (by decide) (by decide) (by decide)
    (by decide) (by decide) (by decide) rfl rfl rfl

/-- C6: re-running `ProcessPlaylist` against an unchanged listing whose
fetches all succeed adds no video row on the second run (the video table is
exactly that of the first run) and fires the callback with
`downloaded = false` for every listed item (those with a non-empty ID — the
listing step discards the rest). -/
theorem c6_idempotent_reingestion
    (vids : List VideoInfo) (db : DB) (now1 now2 : Int) (url name : String)
    (download : String → String → Except String (String × Int)) (parseDate : String → Int)
    (hurl : extractPlaylistID url ≠ "")
    (hdl : ∀ v ∈ vids, ∃ fp sz, download v.id name = Except.ok (fp, sz)) :
    (ProcessPlaylist (Except.ok vids) download parseDate
        (ProcessPlaylist (Except.ok vids) download parseDate db now1 url name).db
        now2 url name).db.videos =
      (ProcessPlaylist (Except.ok vids) download parseDate db now1 url name).db.videos ∧
    (ProcessPlaylist (Except.ok vids) download parseDate
        (ProcessPlaylist (Except.ok vids) download parseDate db now1 url name).db
        now2 url name).callbacks =
      (vids.filter fun v => v.id ≠ "").map fun v => (v.id, false) := by
  set pid := extractPlaylistID url with hpidd
  set videos1 := (vids.filter fun e => e.id ≠ "").map
    fun e => { e with playlistID := pid } with hv1
  have hids : ∀ v ∈ videos1, ∃ fp sz, download v.id name = Except.ok (fp, sz) := by
    intro v hv
    rw [hv1] at hv
    obtain ⟨e, he, rfl⟩ := List.mem_map.mp hv
    exact hdl e (List.mem_filter.mp he).1
  have hmapeq : (videos1.map fun v => (v.id, false)) =
      (vids.filter fun v => v.id ≠ "").map fun v => (v.id, false) := by
    rw [hv1, List.map_map]
    rfl
  rw [processPlaylist_ok vids download parseDate db now1 url name hurl]
  by_cases hlen : videos1.length = 0
  · have hnil : videos1 = [] := List.length_eq_zero.mp hlen
    simp only [← hv1, ← hpidd, hnil, List.length_nil, eq_self_iff_true, if_true]
    rw [processPlaylist_ok vids download parseDate _ now2 url name hurl]
    simp only [← hv1, ← hpidd, hnil, List.length_nil, eq_self_iff_true, if_true]
    constructor
    · rw [getOrCreate_videos]
    · rw [← hmapeq, hnil]
      rfl
  · simp only [← hv1, ← hpidd, if_neg hlen]
    rw [processPlaylist_ok vids download parseDate _ now2 url name hurl]
    simp only [← hv1, ← hpidd, if_neg hlen]
    set r1db := (processVideos download parseDate now1
      (GetOrCreatePlaylist db now1 pid name).1.youtubeID
      (GetOrCreatePlaylist db now1 pid name).1.title name videos1
      (GetOrCreatePlaylist db now1 pid name).2 []).1 with hr1db
    have hcov : ∀ v ∈ videos1, VideoExists r1db v.id = true := by
      intro v hv
      rw [hr1db]
      exact processVideos_covers download parseDate now1 _ _ name videos1 hids _ [] v hv
    have hex2 : ∀ v ∈ videos1,
        VideoExists (GetOrCreatePlaylist r1db now2 pid name).2 v.id = true := by
      intro v hv
      rw [videoExists_congr _ r1db (getOrCreate_videos r1db now2 pid name)]
      exact hcov v hv
    rw [processVideos_all_exist download parseDate now2 _ _ name videos1 _ [] hex2]
    constructor
    · rw [getOrCreate_videos]
    · rw [← hmapeq]
      rfl

/-- C6 witness: a 2-item listing ingested twice on a fresh store. -/
theorem c6_idempotent_reingestion_witness :
    (ProcessPlaylist (Except.ok [vidA, vidB]) dlOk (fun _ => 0)
        (ProcessPlaylist (Except.ok [vidA, vidB]) dlOk (fun _ => 0)
          emptyDB 0 "PL6" "N").db 1 "PL6" "N").db.videos =
      (ProcessPlaylist (Except.ok [vidA, vidB]) dlOk (fun _ => 0)
        emptyDB 0 "PL6" "N").db.videos ∧
    (ProcessPlaylist (Except.ok [vidA, vidB]) dlOk (fun _ => 0)
        (ProcessPlaylist (Except.ok [vidA, vidB]) dlOk (fun _ => 0)
          emptyDB 0 "PL6" "N").db 1 "PL6" "N").callbacks =
      ([vidA, vidB].filter fun v => v.id ≠ "").map fun v => (v.id, false) :=
  c6_idempotent_reingestion [vidA, vidB] emptyDB 0 1 "PL6" "N" dlOk (fun _ => 0)
    (by decide) (fun v hv => ⟨"out.mp3", 10, rfl⟩)

/-- C10 witness: the row property discharged on the concrete row written by
`AddVideo` on a fresh store. -/
theorem c10_addvideo_file_path_witness :
    addedRow.filePath =
      some (".music/" ++ sanitizeFilename sampleMetadata.title ++ " [" ++ "v1" ++ "].mp3") ∧
    addedRow.fileSize = 0 ∧ addedRow.validationStatus = "pending" ∧
    addedRow.lastValidated = some 0 ∧
    (∀ p, addedRow.filePath = some p → p ≠ "") :=
  (c10_addvideo_file_path emptyDB 0 "v1" "PL1" "T" sampleMetadata).2 addedRow
    (by decide) (by decide)

end PPDownloader
